import Mathlib

/-!
Verification of the email-warmup backend core against its specification.

The definitions below are a shallow embedding of the TypeScript source:

* `SessionStatus`, `WarmupSession`, `SessionDB` and its operations embed
  `backend/src/db/sessionRepo.ts` (the `warmup_sessions` table is a list of
  rows; `session_date` is a day number; timestamps are naturals).
* `SmtpConfig`, `createTransporter`, `buildMailOptions`, `sendEmail` embed
  `backend/src/services/smtpService.ts` (the UUID draw and the SMTP server's
  accepted-recipient list are explicit inputs; the JS truthiness test
  `if (params.inReplyTo)` is modelled by `strTruthy`).
* `ListenerState`/`ListenerEvent`/`listenerStep` embed the event-driven
  `ImapListener` class of `backend/src/services/imapService.ts` as a state
  machine; ghost fields count `onTimeout` invocations and deliveries.
* `World` and the orchestrator operations embed
  `backend/src/services/warmupOrchestrator.ts` for a single domain account
  (the module-level `activeSessions` registry restricted to one key).
-/

namespace EmailWarmup

/-- Status of a warm-up session row (`warmup_sessions.status`). -/
inductive SessionStatus
  | pending
  | sending
  | waiting_reply
  | paused
  | completed
  | failed
  deriving DecidableEq, Repr

/-- A row of the `warmup_sessions` table (fields consumed by the core;
dates and timestamps are naturals). -/
structure WarmupSession where
  id : Nat
  domain_account_id : String
  current_lead_index : Nat
  status : SessionStatus
  last_message_id : Option String
  session_date : Nat
  started_at : Nat
  completed_at : Option Nat
  error_message : Option String
  deriving DecidableEq, Repr

/-- The `warmup_sessions` table: rows in insertion order plus the id
generator. -/
structure SessionDB where
  rows : List WarmupSession
  nextId : Nat
  deriving DecidableEq, Repr

/-- The optional `extras` argument of `sessionRepo.updateStatus`.
A field of type `Option (Option _)` distinguishes "not provided"
(outer `none`) from "provided as SQL NULL" (`some none`), mirroring the
`'error_message' in extras` / `'completed_at' in extras` checks in the
source. `current_lead_index` and `last_message_id` cannot be set to NULL
through this interface. -/
structure UpdateExtras where
  current_lead_index : Option Nat := none
  last_message_id : Option String := none
  error_message : Option (Option String) := none
  completed_at : Option (Option Nat) := none
  deriving DecidableEq, Repr

/-- Effect of the UPDATE statement built by `sessionRepo.updateStatus` on a
single row: `status` is always written, each extra only when provided. -/
def applyUpdate (status : SessionStatus) (extras : UpdateExtras)
    (s : WarmupSession) : WarmupSession :=
  let s1 := { s with status := status }
  let s2 := match extras.current_lead_index with
    | some i => { s1 with current_lead_index := i }
    | none => s1
  let s3 := match extras.last_message_id with
    | some m => { s2 with last_message_id := some m }
    | none => s2
  let s4 := match extras.error_message with
    | some e => { s3 with error_message := e }
    | none => s3
  match extras.completed_at with
  | some c => { s4 with completed_at := c }
  | none => s4

/-- Embeds `sessionRepo.updateStatus(id, status, extras)`: update the row with the
given id and return it; `none` when no row matches (`result.rows.length === 0`). -/
def SessionDB.updateStatus (db : SessionDB) (id : Nat) (status : SessionStatus)
    (extras : UpdateExtras) : SessionDB × Option WarmupSession :=
  match db.rows.find? (fun r => r.id == id) with
  | none => (db, none)
  | some r =>
    let r' := applyUpdate status extras r
    ({ db with rows := db.rows.map (fun x => if x.id == r.id then r' else x) },
     some r')

/-- Embeds `sessionRepo.findActiveToday`: the row for (domain, today) whose status is
neither completed nor failed. The (domain_account_id, session_date) key is
unique in the schema, so `LIMIT 1` is the first match. -/
def SessionDB.findActiveToday (db : SessionDB) (domainAccountId : String)
    (today : Nat) : Option WarmupSession :=
  db.rows.find? (fun r =>
    r.domain_account_id == domainAccountId && r.session_date == today &&
    !(r.status == SessionStatus.completed) && !(r.status == SessionStatus.failed))

/-- Embeds `sessionRepo.findCompletedToday`: the completed row for (domain, today). -/
def SessionDB.findCompletedToday (db : SessionDB) (domainAccountId : String)
    (today : Nat) : Option WarmupSession :=
  db.rows.find? (fun r =>
    r.domain_account_id == domainAccountId && r.session_date == today &&
    r.status == SessionStatus.completed)

/-- The reset applied by `sessionRepo.create` when a row for (domain, today)
already exists. -/
def resetRow (now : Nat) (r : WarmupSession) : WarmupSession :=
  { r with status := SessionStatus.pending
           current_lead_index := 0
           last_message_id := none
           error_message := none
           completed_at := none
           started_at := now }

/-- Embeds `sessionRepo.create(domainAccountId)`: reset the existing (domain, today)
row if there is one, else insert a fresh pending row (the schema defaults
`session_date` to `CURRENT_DATE` and `current_lead_index` to 0). -/
def SessionDB.create (db : SessionDB) (domainAccountId : String)
    (today : Nat) (now : Nat) : SessionDB × WarmupSession :=
  match db.rows.find? (fun r =>
      r.domain_account_id == domainAccountId && r.session_date == today) with
  | some r =>
    let r' := resetRow now r
    ({ db with rows := db.rows.map (fun x => if x.id == r.id then r' else x) },
     r')
  | none =>
    let r : WarmupSession :=
      { id := db.nextId
        domain_account_id := domainAccountId
        current_lead_index := 0
        status := SessionStatus.pending
        last_message_id := none
        session_date := today
        started_at := now
        completed_at := none
        error_message := none }
    ({ rows := db.rows ++ [r], nextId := db.nextId + 1 }, r)

/-- Stored `current_lead_index` of the row with the given id. -/
def rowIndex (db : SessionDB) (id : Nat) : Option Nat :=
  (db.rows.find? (fun r => r.id == id)).map (fun r => r.current_lead_index)

/-- Stored status of the row with the given id. -/
def rowStatus (db : SessionDB) (id : Nat) : Option SessionStatus :=
  (db.rows.find? (fun r => r.id == id)).map (fun r => r.status)

/-! ### SMTP service (`smtpService.ts`) -/

/-- The `SmtpConfig` interface of `smtpService.ts`. -/
structure SmtpConfig where
  host : String
  port : Nat
  secure : Bool
  password : String
  email : String
  senderName : String
  deriving DecidableEq, Repr

/-- The `SendEmailParams` interface of `smtpService.ts`. -/
structure SendEmailParams where
  toAddr : String
  subject : String
  body : String
  inReplyTo : Option String := none
  references : Option String := none
  deriving DecidableEq, Repr

/-- The nodemailer transport options that `createTransporter` builds
(the fields it sets from the config). -/
structure TransportOptions where
  host : String
  port : Nat
  secure : Bool
  authUser : String
  authPass : String
  deriving DecidableEq, Repr

/-- Embeds `createTransporter(config)`: note `secure: config.port === 465` is
computed from the port; `config.secure` is not read. -/
def createTransporter (config : SmtpConfig) : TransportOptions :=
  { host := config.host
    port := config.port
    secure := config.port == 465
    authUser := config.email
    authPass := config.password }

/-- JS truthiness of an optional string: `undefined` and `''` are falsy. -/
def strTruthy : Option String → Option String
  | some v => if v = "" then none else some v
  | none => none

/-- JS `String.prototype.split` on a single separator character, written as
structural recursion over the character list so that concrete instances
evaluate inside the kernel. `"a@b"` ↦ `["a", "b"]`, `"a"` ↦ `["a"]`,
`"@b"` ↦ `["", "b"]`. -/
def splitOnChar (sep : Char) : List Char → List (List Char)
  | [] => [[]]
  | c :: cs =>
    let rest := splitOnChar sep cs
    if c == sep then [] :: rest
    else
      match rest with
      | [] => [[c]]
      | g :: gs => (c :: g) :: gs

/-- The domain part taken by `smtpConfig.email.split('@')[1]`; indexing past
the end of a JS array yields `undefined`, which would be interpolated as the
string `"undefined"`. -/
def emailDomainPart (email : String) : String :=
  match (splitOnChar '@' email.data).get? 1 with
  | some cs => String.mk cs
  | none => "undefined"

/-- The nodemailer message options that `sendEmail` builds. -/
structure MailOptions where
  fromField : String
  toField : String
  subject : String
  text : String
  messageId : String
  inReplyToHeader : Option String
  referencesHeader : Option String
  deriving DecidableEq, Repr

/-- The mail options built by `sendEmail`: fresh Message-ID
`<uuid@sender-domain>`; when `params.inReplyTo` is truthy, the In-Reply-To
header is set to it and the References header to
`params.references || params.inReplyTo`. -/
def buildMailOptions (config : SmtpConfig) (params : SendEmailParams)
    (uuid : String) : MailOptions :=
  let domain := emailDomainPart config.email
  let messageId := "<" ++ uuid ++ "@" ++ domain ++ ">"
  let base : MailOptions :=
    { fromField := "\"" ++ config.senderName ++ "\" <" ++ config.email ++ ">"
      toField := params.toAddr
      subject := params.subject
      text := params.body
      messageId := messageId
      inReplyToHeader := none
      referencesHeader := none }
  match strTruthy params.inReplyTo with
  | some v =>
    { base with
        inReplyToHeader := some v
        referencesHeader := some ((strTruthy params.references).getD v) }
  | none => base

/-- The `SendEmailResult` of `smtpService.ts`. -/
structure SendEmailResult where
  messageId : String
  accepted : List String
  deriving DecidableEq, Repr

/-- Embeds `sendEmail(smtpConfig, params)` on its success path: the UUID draw and
the accepted-recipient list returned by the server are explicit inputs; the
result pairs the generated Message-ID with the server's accepted list.
The transporter and mail options are returned as well so theorems can speak
about the connection settings and headers used. A transport failure throws
and reaches the caller verbatim (orchestrator: routed to `failSession`). -/
def sendEmail (config : SmtpConfig) (params : SendEmailParams)
    (uuid : String) (serverAccepted : List String) :
    TransportOptions × MailOptions × SendEmailResult :=
  let transporter := createTransporter config
  let opts := buildMailOptions config params uuid
  (transporter, opts, { messageId := opts.messageId, accepted := serverAccepted })

/-- Embeds the fact that `testSmtpConnection(config)` verifies over the transporter built by the
same `createTransporter`. -/
def testSmtpConnectionTransporter (config : SmtpConfig) : TransportOptions :=
  createTransporter config

/-! ### IMAP listener (`imapService.ts`)

`ImapListener` is event-driven; we embed it as a state machine. The fields
`isConnected`, `isDestroyed`, `reconnectAttempts` are the class's own fields;
`pollActive`, `waitTimerArmed`, `reconnectPending` record whether the
corresponding `setInterval`/`setTimeout` handles are live; the ghost fields
`timeoutsFired`, `deliveries` and `deliveredAfterTimeout` record the
externally observable `onTimeout` and `onEmail` invocations. -/

/-- A parsed incoming message (the `IncomingEmail` interface). -/
structure IncomingEmail where
  messageId : String
  fromAddr : String
  toAddr : String
  subject : String
  body : String
  inReplyTo : Option String
  date : Nat
  deriving DecidableEq, Repr

/-- State of one `ImapListener` object. `hasOnTimeout` records whether the
optional `onTimeout` callback was supplied at construction. -/
structure ListenerState where
  hasOnTimeout : Bool
  isConnected : Bool
  isDestroyed : Bool
  pollActive : Bool
  waitTimerArmed : Bool
  reconnectPending : Bool
  reconnectAttempts : Nat
  timeoutsFired : Nat
  deliveries : List IncomingEmail
  deliveredAfterTimeout : Nat
  deriving DecidableEq, Repr

/-- The freshly constructed listener (`new ImapListener(...)`). -/
def ListenerState.init (hasOnTimeout : Bool) : ListenerState :=
  { hasOnTimeout := hasOnTimeout
    isConnected := false
    isDestroyed := false
    pollActive := false
    waitTimerArmed := false
    reconnectPending := false
    reconnectAttempts := 0
    timeoutsFired := 0
    deliveries := []
    deliveredAfterTimeout := 0 }

/-- External events a listener reacts to. Message-bearing events carry the
matching UNSEEN messages the server returns for the search (already filtered
server-side by `UNSEEN` plus the optional `FROM`) as parsed by `parseMessage`.
Events that require a live socket (`ready`, `mail`) can only occur while the
object has not been destroyed: `disconnect()` ends the connection. -/
inductive ListenerEvent
  | readyEvent
  | mailEvent (msgs : List IncomingEmail)
  | initialScanFire (msgs : List IncomingEmail)
  | pollTick (msgs : List IncomingEmail)
  | waitTimerFire
  | errorEvent
  | closeEvent
  | reconnectTimerFire
  | disconnectCall
  deriving DecidableEq, Repr

/-- Embeds `fetchNewMessages` followed by `parseMessage` on each result: every
successfully parsed message is handed to `onEmail`, with no check of
`isDestroyed` or of any earlier timeout. -/
def deliverMessages (st : ListenerState) (msgs : List IncomingEmail) :
    ListenerState :=
  { st with
      deliveries := st.deliveries ++ msgs
      deliveredAfterTimeout :=
        st.deliveredAfterTimeout + (if st.timeoutsFired > 0 then msgs.length else 0) }

/-- Embeds `safeReconnect()`: give up and fire `onTimeout` once the attempt counter
exceeds `MAX_RECONNECT_ATTEMPTS = 5`, otherwise schedule a reconnect timer. -/
def safeReconnect (st : ListenerState) : ListenerState :=
  if st.isDestroyed then st
  else
    let st1 := { st with reconnectAttempts := st.reconnectAttempts + 1 }
    if st1.reconnectAttempts > 5 then
      { st1 with timeoutsFired :=
          st1.timeoutsFired + (if st1.hasOnTimeout then 1 else 0) }
    else
      { st1 with reconnectPending := true }

/-- One event of the `ImapListener` lifecycle.

* `readyEvent`: the socket's `ready` handler plus a successful `openBox`:
  sets `isConnected`, resets the attempt counter, registers the `mail`
  handler, schedules the initial scan, `startPolling()`, `startWaitTimeout()`
  (which clears and re-arms the wait timer when `onTimeout` was supplied).
* `mailEvent` / `initialScanFire` / `pollTick`: the three paths into
  `fetchNewMessages`; the initial-scan and poll bodies check
  `!isDestroyed && isConnected`, the `mail` handler fetches directly.
* `waitTimerFire`: the one-shot wait timer body; fires `onTimeout` unless
  the object was destroyed.
* `errorEvent` / `closeEvent`: the `error` / `end` / `close` handlers; both
  call `safeReconnect()` unless destroyed, the latter clears `isConnected`.
* `reconnectTimerFire`: the timer scheduled by `safeReconnect`; calls
  `connect()` (the subsequent `ready` is a separate event).
* `disconnectCall`: `disconnect()`: destroys the object, clears the poll
  interval and the wait timer, ends the connection. -/
def listenerStep (st : ListenerState) (e : ListenerEvent) : ListenerState :=
  match e with
  | ListenerEvent.readyEvent =>
    if st.isDestroyed then st
    else
      { st with
          isConnected := true
          reconnectAttempts := 0
          pollActive := true
          waitTimerArmed := st.hasOnTimeout }
  | ListenerEvent.mailEvent msgs =>
    if st.isDestroyed || !st.isConnected then st else deliverMessages st msgs
  | ListenerEvent.initialScanFire msgs =>
    if !st.isDestroyed && st.isConnected then deliverMessages st msgs else st
  | ListenerEvent.pollTick msgs =>
    if st.pollActive && !st.isDestroyed && st.isConnected then
      deliverMessages st msgs
    else st
  | ListenerEvent.waitTimerFire =>
    if st.waitTimerArmed then
      let st1 := { st with waitTimerArmed := false }
      if !st1.isDestroyed then
        { st1 with timeoutsFired :=
            st1.timeoutsFired + (if st1.hasOnTimeout then 1 else 0) }
      else st1
    else st
  | ListenerEvent.errorEvent =>
    if !st.isDestroyed then safeReconnect st else st
  | ListenerEvent.closeEvent =>
    let st1 := { st with isConnected := false }
    if !st1.isDestroyed then safeReconnect st1 else st1
  | ListenerEvent.reconnectTimerFire =>
    if st.reconnectPending then { st with reconnectPending := false } else st
  | ListenerEvent.disconnectCall =>
    { st with
        isDestroyed := true
        isConnected := false
        pollActive := false
        waitTimerArmed := false }

/-- Run a listener through a sequence of events. -/
def listenerRun (st : ListenerState) : List ListenerEvent → ListenerState
  | [] => st
  | e :: es => listenerRun (listenerStep st e) es

/-! ### Orchestrator (`warmupOrchestrator.ts`)

The orchestrator is embedded for a single domain account: `World.active` is
the `activeSessions` registry restricted to that account's key, `World.db`
the `warmup_sessions` table, `World.mailLog` the `mail_logs` table (append
order), and `World.domainStatus` the account's `status` column (written by
`domainAccountRepo.updateStatus`). Await points (DB calls, SMTP sends, the
Groq generator) are modelled by passing their results as explicit inputs;
`setTimeout` callbacks are modelled as pending-timer records whose firing is
a separate operation. Operations that throw return an `Except` paired with
the world reached before the throw. -/

/-- The `domain_accounts.status` column. -/
inductive AccountStatus
  | idle
  | running
  | paused
  deriving DecidableEq, Repr

/-- A domain account row (credential fields consumed by the orchestrator;
the `status` column is tracked in `World.domainStatus`). -/
structure DomainAccount where
  id : String
  sender_name : String
  email : String
  smtp_host : String
  smtp_port : Nat
  smtp_secure : Bool
  smtp_password : String
  imap_host : String
  imap_port : Nat
  imap_secure : Bool
  imap_password : String
  deriving DecidableEq, Repr

/-- A lead account row. -/
structure LeadAccount where
  id : String
  sender_name : String
  email : String
  smtp_host : String
  smtp_port : Nat
  smtp_secure : Bool
  smtp_password : String
  imap_host : String
  imap_port : Nat
  imap_secure : Bool
  imap_password : String
  deriving DecidableEq, Repr

/-- The `mail_logs.direction` column. -/
inductive Direction
  | sent
  | received
  | replied
  deriving DecidableEq, Repr

/-- A `mail_logs` row (fields written by `mailLogRepo.create`). -/
structure MailEntry where
  session_id : Option Nat
  from_email : String
  to_email : String
  subject : String
  body : String
  message_id : String
  in_reply_to : Option String
  direction : Direction
  lead_index : Nat
  deriving DecidableEq, Repr

/-- A `{subject, body}` pair returned by the Groq text generator. -/
structure GroqEmailResponse where
  subject : String
  body : String
  deriving DecidableEq, Repr

/-- What a pending `setTimeout` of the orchestrator will do when it fires:
the reply timer set in the lead-side email callback, or the advance timer
set after a reply arrives or after a skip. -/
inductive TimerAction
  | leadReply (lead : LeadAccount) (incoming : IncomingEmail)
      (origSubject origBody : String)
  | nextLead
  deriving DecidableEq, Repr

/-- A pending `setTimeout` pushed onto `active.timers`. -/
structure PendingTimer where
  delayMs : Nat
  action : TimerAction
  deriving DecidableEq, Repr

/-- The `ActiveSession` record kept in the `activeSessions` registry.
The two listener fields record whether a live `ImapListener` object is
attached (`null` ↔ `false`). -/
structure ActiveSession where
  session : WarmupSession
  domainAccount : DomainAccount
  leads : List LeadAccount
  domainImapListener : Bool
  leadImapListener : Bool
  isPaused : Bool
  timers : List PendingTimer
  deriving DecidableEq, Repr

/-- Global state for one domain account. -/
structure World where
  domainAccountId : String
  today : Nat
  db : SessionDB
  mailLog : List MailEntry
  domainStatus : AccountStatus
  active : Option ActiveSession
  deriving DecidableEq, Repr

/-- The normalisation `(addr || '').toLowerCase().replace(/[<>\s]/g, '')`
used by both email callbacks (over the character list so that concrete
instances evaluate inside the kernel). -/
def normalizeAddr (s : String) : String :=
  String.mk ((s.data.map Char.toLower).filter
    (fun c => !(c == '<' || c == '>' || c.isWhitespace)))

/-- The `SmtpConfig` object built from a domain account at the
`processNextLead` call site of `sendEmail`. -/
def domainSmtpConfig (acct : DomainAccount) : SmtpConfig :=
  { host := acct.smtp_host
    port := acct.smtp_port
    secure := acct.smtp_secure
    password := acct.smtp_password
    email := acct.email
    senderName := acct.sender_name }

/-- The `SmtpConfig` object built from a lead account at the
`sendLeadReply` call site of `sendEmail`. -/
def leadSmtpConfig (lead : LeadAccount) : SmtpConfig :=
  { host := lead.smtp_host
    port := lead.smtp_port
    secure := lead.smtp_secure
    password := lead.smtp_password
    email := lead.email
    senderName := lead.sender_name }

/-- Embeds `completeSession(domainAccountId)`: mark the session completed with a
completion timestamp, set the domain account idle, clean up and deregister. -/
def completeSession (w : World) (now : Nat) : World :=
  match w.active with
  | none => w
  | some active =>
    let upd := w.db.updateStatus active.session.id SessionStatus.completed
      { completed_at := some (some now) }
    { w with db := upd.1, domainStatus := AccountStatus.idle, active := none }

/-- Embeds `failSession(domainAccountId, errorMessage)`: mark the session failed
with the error message, set the domain account idle, clean up and
deregister. -/
def failSession (w : World) (errorMessage : String) : World :=
  match w.active with
  | none => w
  | some active =>
    let upd := w.db.updateStatus active.session.id SessionStatus.failed
      { error_message := some (some errorMessage) }
    { w with db := upd.1, domainStatus := AccountStatus.idle, active := none }

/-- Embeds `processNextLead(domainAccountId)` on its success path. The generated
`{subject, body}`, the UUID draw of the send, and the recipients the SMTP
server accepts are explicit inputs; `now` is only read if the session
completes. A Groq or SMTP failure propagates to the caller, which routes it
to `failSession`. After the send: append the `sent` mail-log entry, move the
session to `waiting_reply` recording the Message-ID, and arm the lead-side
listener (`setupLeadAutoReply` replaces any previous one). -/
def processNextLead (w : World) (gen : GroqEmailResponse) (uuid : String)
    (serverAccepted : List String) (now : Nat) : World :=
  match w.active with
  | none => w
  | some active =>
    if active.isPaused then w
    else
      let leadIndex := active.session.current_lead_index
      if h : leadIndex < active.leads.length then
        let currentLead := active.leads.get ⟨leadIndex, h⟩
        let sendOut := sendEmail (domainSmtpConfig active.domainAccount)
          { toAddr := currentLead.email
            subject := gen.subject
            body := gen.body } uuid serverAccepted
        let entry : MailEntry :=
          { session_id := some active.session.id
            from_email := active.domainAccount.email
            to_email := currentLead.email
            subject := gen.subject
            body := gen.body
            message_id := sendOut.2.2.messageId
            in_reply_to := none
            direction := Direction.sent
            lead_index := leadIndex }
        let upd := w.db.updateStatus active.session.id
          SessionStatus.waiting_reply
          { current_lead_index := some leadIndex
            last_message_id := some sendOut.2.2.messageId }
        let active1 := { active with
            session := upd.2.getD active.session
            leadImapListener := true }
        { w with db := upd.1, mailLog := w.mailLog ++ [entry],
                 active := some active1 }
      else
        completeSession w now

/-- The email callback installed by `setupLeadAutoReply` on the lead-side
listener. The closure captures the registered `ActiveSession` object; we
model invocations made while it is registered. `replyDelay` is the uniform
draw in `[180000, 300000]` for the reply timer. On a from-address match it
appends a `received` entry, disconnects the lead listener if one is present,
and schedules the reply timer — with no check that the message was already
accepted once. -/
def leadEmailCallback (w : World) (lead : LeadAccount)
    (origSubject origBody : String) (incoming : IncomingEmail)
    (replyDelay : Nat) : World :=
  match w.active with
  | none => w
  | some active =>
    let fromAddr := normalizeAddr incoming.fromAddr
    let domainAddr := normalizeAddr active.domainAccount.email
    if fromAddr != domainAddr then w
    else
      let entry : MailEntry :=
        { session_id := some active.session.id
          from_email := incoming.fromAddr
          to_email := lead.email
          subject := incoming.subject
          body := incoming.body
          message_id := incoming.messageId
          in_reply_to := none
          direction := Direction.received
          lead_index := active.session.current_lead_index }
      let active1 :=
        if active.leadImapListener then
          { active with leadImapListener := false }
        else active
      let timer : PendingTimer :=
        { delayMs := replyDelay
          action := TimerAction.leadReply lead incoming origSubject origBody }
      { w with
          mailLog := w.mailLog ++ [entry]
          active := some { active1 with timers := active1.timers ++ [timer] } }

/-- Embeds `sendLeadReply(domainAccountId, lead, incomingEmail, originalEmail)` on
its success path: send the generated reply from the lead with In-Reply-To
and References both set to the incoming message's id, append the `replied`
entry with `in_reply_to = incomingEmail.messageId`, then arm the domain-side
listener (`setupDomainReplyListener`). -/
def sendLeadReply (w : World) (lead : LeadAccount) (incoming : IncomingEmail)
    (replyContent : GroqEmailResponse) (uuid : String)
    (serverAccepted : List String) : World :=
  match w.active with
  | none => w
  | some active =>
    if active.isPaused then w
    else
      let sendOut := sendEmail (leadSmtpConfig lead)
        { toAddr := active.domainAccount.email
          subject := replyContent.subject
          body := replyContent.body
          inReplyTo := some incoming.messageId
          references := some incoming.messageId } uuid serverAccepted
      let entry : MailEntry :=
        { session_id := some active.session.id
          from_email := lead.email
          to_email := active.domainAccount.email
          subject := replyContent.subject
          body := replyContent.body
          message_id := sendOut.2.2.messageId
          in_reply_to := some incoming.messageId
          direction := Direction.replied
          lead_index := active.session.current_lead_index }
      let active1 := { active with domainImapListener := true }
      { w with mailLog := w.mailLog ++ [entry], active := some active1 }

/-- The reply timer body set in the lead email callback: re-fetch the
registered session, return early when deregistered or paused, else
`sendLeadReply`. -/
def fireLeadReplyTimer (w : World) (lead : LeadAccount)
    (incoming : IncomingEmail) (replyContent : GroqEmailResponse)
    (uuid : String) (serverAccepted : List String) : World :=
  match w.active with
  | none => w
  | some currentActive =>
    if currentActive.isPaused then w
    else sendLeadReply w lead incoming replyContent uuid serverAccepted

/-- The email callback installed by `setupDomainReplyListener` on the
domain-side listener. On a from-address match: append a `received` entry
(`in_reply_to: incomingEmail.inReplyTo || undefined`), disconnect the domain
listener, advance `current_lead_index` with status `sending`, then complete
the session or schedule the inter-lead delay timer (`randomDelay()`, passed
here as `interLeadDelay`). -/
def domainEmailCallback (w : World) (expectedFromEmail : String)
    (incoming : IncomingEmail) (interLeadDelay : Nat) (now : Nat) : World :=
  match w.active with
  | none => w
  | some active =>
    let fromAddr := normalizeAddr incoming.fromAddr
    let expectedAddr := normalizeAddr expectedFromEmail
    if fromAddr != expectedAddr then w
    else
      let entry : MailEntry :=
        { session_id := some active.session.id
          from_email := incoming.fromAddr
          to_email := active.domainAccount.email
          subject := incoming.subject
          body := incoming.body
          message_id := incoming.messageId
          in_reply_to := strTruthy incoming.inReplyTo
          direction := Direction.received
          lead_index := active.session.current_lead_index }
      let active1 :=
        if active.domainImapListener then
          { active with domainImapListener := false }
        else active
      let nextIndex := active1.session.current_lead_index + 1
      let upd := w.db.updateStatus active1.session.id SessionStatus.sending
        { current_lead_index := some nextIndex }
      let active2 := { active1 with session := upd.2.getD active1.session }
      let w1 := { w with
          db := upd.1
          mailLog := w.mailLog ++ [entry]
          active := some active2 }
      if nextIndex ≥ active2.leads.length then completeSession w1 now
      else
        { w1 with active := some { active2 with timers := active2.timers ++
            [{ delayMs := interLeadDelay, action := TimerAction.nextLead }] } }

/-- Embeds `skipToNextLead(domainAccountId, reason)`: the shared timeout handler.
Returns unchanged when deregistered or paused; else disconnects both
listeners, persists `current_lead_index := index + 1` with status `sending`,
then either completes the session immediately (no leads remain) or schedules
a fixed 10-second advance timer. -/
def skipToNextLead (w : World) (now : Nat) : World :=
  match w.active with
  | none => w
  | some active =>
    if active.isPaused then w
    else
      let active1 := { active with
          leadImapListener := false
          domainImapListener := false }
      let nextIndex := active1.session.current_lead_index + 1
      let upd := w.db.updateStatus active1.session.id SessionStatus.sending
        { current_lead_index := some nextIndex }
      let active2 := { active1 with session := upd.2.getD active1.session }
      let w1 := { w with
          db := upd.1
          active := some active2 }
      if nextIndex ≥ active2.leads.length then completeSession w1 now
      else
        { w1 with active := some { active2 with timers := active2.timers ++
            [{ delayMs := 10000, action := TimerAction.nextLead }] } }

/-- Embeds `pauseWarmup(domainAccountId)`: throws when no orchestrator is
registered; else sets the paused flag, disconnects both listeners and clears
the pending timers on the registered object, writes session status `paused`
and domain status `paused`, deregisters, and returns the updated row (the
raw `updateStatus` result, which may be `null`). -/
def pauseWarmup (w : World) : World × Except String (Option WarmupSession) :=
  match w.active with
  | none =>
    (w, Except.error "No active warm-up session found for this domain account")
  | some active =>
    let upd := w.db.updateStatus active.session.id SessionStatus.paused {}
    ({ w with
        db := upd.1
        domainStatus := AccountStatus.paused
        active := none },
     Except.ok upd.2)

/-- Embeds `stopWarmup(domainAccountId)`: with a registered orchestrator, fail it
with "Manually stopped by user"; otherwise fail today's non-terminal row if
one exists and set the domain account idle; otherwise do nothing. -/
def stopWarmup (w : World) : World :=
  match w.active with
  | none =>
    match w.db.findActiveToday w.domainAccountId w.today with
    | some s =>
      let upd := w.db.updateStatus s.id SessionStatus.failed
        { error_message := some (some "Manually stopped by user") }
      { w with db := upd.1, domainStatus := AccountStatus.idle }
    | none => w
  | some _ => failSession w "Manually stopped by user"

/-- Render a status the way the source interpolates it into messages. -/
def statusString : SessionStatus → String
  | SessionStatus.pending => "pending"
  | SessionStatus.sending => "sending"
  | SessionStatus.waiting_reply => "waiting_reply"
  | SessionStatus.paused => "paused"
  | SessionStatus.completed => "completed"
  | SessionStatus.failed => "failed"

/-- Embeds `startWarmup(domainAccountId)`: the synchronous part, up to and
including registration; the asynchronous `processNextLead` launch is a
separate operation. The loaded domain account (`none` when the repo lookup
finds nothing) and the lead roster are explicit inputs. Throws leave the
world unchanged, matching the source where every throw happens before any
write. Dynamic date/timestamp interpolations of the completed-today message
are omitted. -/
def startWarmup (w : World) (domainAccount : Option DomainAccount)
    (leads : List LeadAccount) (now : Nat) :
    World × Except String WarmupSession :=
  if w.active.isSome then
    (w, Except.error "Warm-up session already active for this domain account")
  else
    match domainAccount with
    | none => (w, Except.error "Domain account not found")
    | some acct =>
      if leads.length == 0 then
        (w, Except.error
          "No lead accounts configured. Add at least one lead Gmail account.")
      else
        match w.db.findCompletedToday w.domainAccountId w.today with
        | some completedToday =>
          let completedLeadCount := completedToday.current_lead_index
          if completedLeadCount < leads.length then
            let upd := w.db.updateStatus completedToday.id
              SessionStatus.sending
              { current_lead_index := some completedLeadCount
                completed_at := some none
                error_message := some none }
            let session := upd.2.getD completedToday
            ({ w with
                db := upd.1
                domainStatus := AccountStatus.running
                active := some
                  { session := session
                    domainAccount := acct
                    leads := leads
                    domainImapListener := false
                    leadImapListener := false
                    isPaused := false
                    timers := [] } },
             Except.ok session)
          else
            (w, Except.error ("All " ++ toString leads.length ++
              " warm-up emails completed for today. Add more lead accounts or try again tomorrow."))
        | none =>
          match w.db.findActiveToday w.domainAccountId w.today with
          | some s =>
            if s.status == SessionStatus.paused then
              let upd := w.db.updateStatus s.id SessionStatus.sending {}
              let session := upd.2.getD s
              ({ w with
                  db := upd.1
                  domainStatus := AccountStatus.running
                  active := some
                    { session := session
                      domainAccount := acct
                      leads := leads
                      domainImapListener := false
                      leadImapListener := false
                      isPaused := false
                      timers := [] } },
               Except.ok session)
            else
              (w, Except.error
                ("Session already exists with status: " ++ statusString s.status))
          | none =>
            let created := w.db.create w.domainAccountId w.today now
            ({ w with
                db := created.1
                domainStatus := AccountStatus.running
                active := some
                  { session := created.2
                    domainAccount := acct
                    leads := leads
                    domainImapListener := false
                    leadImapListener := false
                    isPaused := false
                    timers := [] } },
             Except.ok created.2)

/-- Embeds `resumeWarmup`, which delegates to `startWarmup`. -/
def resumeWarmup (w : World) (domainAccount : Option DomainAccount)
    (leads : List LeadAccount) (now : Nat) :
    World × Except String WarmupSession :=
  startWarmup w domainAccount leads now

/-! ### Stated properties -/

/-- The stored `current_lead_index` of a row never moves backward across an
operation taking the store from `db` to `db'`. -/
def indexNonDecreasing (db db' : SessionDB) (id : Nat) : Prop :=
  ∀ n, rowIndex db id = some n → ∃ m, rowIndex db' id = some m ∧ n ≤ m

/-- The mail-log invariant of the spec: every `replied` entry of a session
carries a non-null `in_reply_to` equal to the `message_id` of some `sent`
entry of the same session. -/
def repliedSentInvariant (log : List MailEntry) (sid : Nat) : Prop :=
  ∀ r ∈ log, r.direction = Direction.replied → r.session_id = some sid →
    r.in_reply_to ≠ none ∧
    ∃ e ∈ log, e.direction = Direction.sent ∧ e.session_id = some sid ∧
      some e.message_id = r.in_reply_to

instance (log : List MailEntry) (sid : Nat) :
    Decidable (repliedSentInvariant log sid) := by
  unfold repliedSentInvariant; infer_instance

/-! ### Concrete fixtures used by counterexamples and witnesses -/

/-- A domain account under warm-up. -/
def exDomainAcct : DomainAccount :=
  { id := "dom-1"
    sender_name := "Warm Sender"
    email := "warm@example.com"
    smtp_host := "smtp.example.com"
    smtp_port := 587
    smtp_secure := true
    smtp_password := "pw-smtp"
    imap_host := "imap.example.com"
    imap_port := 993
    imap_secure := true
    imap_password := "pw-imap" }

/-- A lead responder account. -/
def exLead1 : LeadAccount :=
  { id := "lead-1"
    sender_name := "Lead One"
    email := "lead1@gmail.test"
    smtp_host := "smtp.gmail.com"
    smtp_port := 587
    smtp_secure := true
    smtp_password := "pw1"
    imap_host := "imap.gmail.com"
    imap_port := 993
    imap_secure := true
    imap_password := "pw2" }

/-- Today's session row at index 0, mid-run. -/
def exSession0 : WarmupSession :=
  { id := 1
    domain_account_id := "dom-1"
    current_lead_index := 0
    status := SessionStatus.sending
    last_message_id := none
    session_date := 20
    started_at := 100
    completed_at := none
    error_message := none }

/-- A registered orchestrator for `exSession0` with one lead and an armed
lead-side listener. -/
def exActive1 : ActiveSession :=
  { session := exSession0
    domainAccount := exDomainAcct
    leads := [exLead1]
    domainImapListener := false
    leadImapListener := true
    isPaused := false
    timers := [] }

/-- A world mid-run: one lead, session at index 0, orchestrator registered. -/
def exWorld1 : World :=
  { domainAccountId := "dom-1"
    today := 20
    db := { rows := [exSession0], nextId := 2 }
    mailLog := []
    domainStatus := AccountStatus.running
    active := some exActive1 }

/-- A world whose session was already stopped: the row is failed, no
orchestrator is registered, the account is idle. -/
def exStoppedWorld : World :=
  { domainAccountId := "dom-1"
    today := 20
    db := { rows := [{ exSession0 with
              status := SessionStatus.failed
              error_message := some "Manually stopped by user" }]
            nextId := 2 }
    mailLog := []
    domainStatus := AccountStatus.idle
    active := none }

/-- A store holding a failed session for (dom-1, day 20) that had advanced
to index 3 before failing. -/
def c1Db : SessionDB :=
  { rows := [{ id := 7
               domain_account_id := "dom-1"
               current_lead_index := 3
               status := SessionStatus.failed
               last_message_id := none
               session_date := 20
               started_at := 5
               completed_at := none
               error_message := some "Manually stopped by user" }]
    nextId := 8 }

/-- A matching message for the listener counterexample. -/
def c2Msg : IncomingEmail :=
  { messageId := "<late@example.com>"
    fromAddr := "warm@example.com"
    toAddr := "lead1@gmail.test"
    subject := "Hello"
    body := "Hi"
    inReplyTo := none
    date := 0 }

/-- A listener lifetime with no `disconnect()`: the subscription connects,
its wait timer fires, a poll still delivers a message, a transport error
leads to a reconnect whose `openInbox` re-arms the wait timer, which fires
again. -/
def c2Trace : List ListenerEvent :=
  [ListenerEvent.readyEvent,
   ListenerEvent.waitTimerFire,
   ListenerEvent.pollTick [c2Msg],
   ListenerEvent.errorEvent,
   ListenerEvent.reconnectTimerFire,
   ListenerEvent.readyEvent,
   ListenerEvent.waitTimerFire]

/-- SMTP config for the send-path examples. -/
def c8Config : SmtpConfig :=
  { host := "smtp.example.com"
    port := 587
    secure := true
    password := "pw"
    email := "warm@example.com"
    senderName := "Warm Sender" }

/-- Send parameters supplying `references` different from `inReplyTo`. -/
def c8Params : SendEmailParams :=
  { toAddr := "lead1@gmail.test"
    subject := "Re: Hello"
    body := "Reply body"
    inReplyTo := some "<a@x>"
    references := some "<b@x>" }

/-- Send parameters with `in_reply_to` only, as at the orchestrator's
reply call site. -/
def c8wParams : SendEmailParams :=
  { toAddr := "warm@example.com"
    subject := "Re: Hello"
    body := "Reply body"
    inReplyTo := some "<a@x>"
    references := none }

/-- A message whose from-address matches the domain account. -/
def exIncomingFromDomain : IncomingEmail :=
  { messageId := "<m1@example.com>"
    fromAddr := "warm@example.com"
    toAddr := "lead1@gmail.test"
    subject := "Hello"
    body := "Hi there"
    inReplyTo := none
    date := 3 }

/-- A stray unseen message from the domain address whose Message-ID was
never sent by this session (e.g. left over in the lead's inbox). -/
def exStray : IncomingEmail :=
  { messageId := "<stray@elsewhere>"
    fromAddr := "warm@example.com"
    toAddr := "lead1@gmail.test"
    subject := "Old note"
    body := "Left over"
    inReplyTo := none
    date := 1 }

/-- The message the orchestrator actually sent, as delivered to the lead:
its Message-ID matches the logged `sent` entry. -/
def exGoodIncoming : IncomingEmail :=
  { messageId := "<uid1@example.com>"
    fromAddr := "warm@example.com"
    toAddr := "lead1@gmail.test"
    subject := "Hello"
    body := "Hi there"
    inReplyTo := none
    date := 4 }

/-- A generated outbound `{subject, body}`. -/
def exGen : GroqEmailResponse := { subject := "Hello", body := "Hi there" }

/-- A generated reply `{subject, body}`. -/
def exReplyGen : GroqEmailResponse :=
  { subject := "Re: Hello", body := "Thanks!" }

/-- The world after the first accepted delivery of
`exIncomingFromDomain` on `exWorld1`'s lead callback. -/
def c4WorldAfterFirst : World :=
  leadEmailCallback exWorld1 exLead1 "Hello" "Hi there" exIncomingFromDomain
    200000

/-- The world after the same message is delivered to the same callback a
second time. -/
def c4WorldAfterSecond : World :=
  leadEmailCallback c4WorldAfterFirst exLead1 "Hello" "Hi there"
    exIncomingFromDomain 200000

/-- Trace for the replied/sent invariant: the orchestrator sends to the
lead, the lead-side listener delivers the stray message (accepted, since
only the from-address is checked), the reply timer fires and the lead
replies to the stray message's id. -/
def c9World : World :=
  fireLeadReplyTimer
    (leadEmailCallback
      (processNextLead exWorld1 exGen "uid1" ["lead1@gmail.test"] 0)
      exLead1 "Hello" "Hi there" exStray 180000)
    exLead1 exStray exReplyGen "uid2" ["warm@example.com"]


/-! ## Helper lemmas -/

/-- Replacing, in a list of rows, every row whose id matches the first
`p`-match `r` by a row `r'` with the same id that still satisfies `p` makes
`r'` the first `p`-match of the result (this is the row-replacement shape of
both `updateStatus` and `create`). -/
theorem find?_replaceRow (p : WarmupSession → Bool) (r r' : WarmupSession)
    (hpr : p r' = true) :
    ∀ l : List WarmupSession, l.find? p = some r →
      (l.map (fun x => if x.id == r.id then r' else x)).find? p = some r'
  | [], hfind => by simp at hfind
  | a :: t, hfind => by
    simp only [List.map_cons]
    by_cases hpa : p a = true
    · rw [List.find?_cons_of_pos _ hpa] at hfind
      injection hfind with he
      subst he
      rw [if_pos (by simp)]
      exact List.find?_cons_of_pos _ hpr
    · rw [List.find?_cons_of_neg _ (by simp [hpa])] at hfind
      by_cases hqa : (a.id == r.id) = true
      · rw [if_pos hqa]
        exact List.find?_cons_of_pos _ hpr
      · rw [if_neg (by simp [hqa])]
        rw [List.find?_cons_of_neg _ (by simp [hpa])]
        exact find?_replaceRow p r r' hpr t hfind

/-- The same replacement leaves the first match of an id-lookup for any
other id unchanged. -/
theorem find?_replaceRow_ne (j : Nat) (r r' : WarmupSession)
    (hid : r'.id = r.id) (hne : r.id ≠ j) :
    ∀ l : List WarmupSession,
      (l.map (fun x => if x.id == r.id then r' else x)).find?
          (fun x => x.id == j) =
        l.find? (fun x => x.id == j)
  | [] => by simp
  | a :: t => by
    by_cases hqa : (a.id == r.id) = true
    · have hais : a.id = r.id := by simpa using hqa
      have haj : (a.id == j) = false := by simp [hais, hne]
      have hr'j : (r'.id == j) = false := by simp [hid, hne]
      simp only [List.map_cons, if_pos hqa, List.find?, hr'j, haj]
      exact find?_replaceRow_ne j r r' hid hne t
    · simp only [List.map_cons, if_neg hqa]
      cases haj : (a.id == j) with
      | true => simp only [List.find?, haj]
      | false =>
        simp only [List.find?, haj]
        exact find?_replaceRow_ne j r r' hid hne t

/-- With pairwise distinct row ids, looking a member row up by its id finds
exactly that row. -/
theorem find?_id_of_mem_nodup (l : List WarmupSession) (X : WarmupSession)
    (hmem : X ∈ l) (hnd : (l.map WarmupSession.id).Nodup) :
    l.find? (fun r => r.id == X.id) = some X := by
  induction l with
  | nil => cases hmem
  | cons a t ih =>
    simp only [List.map_cons, List.nodup_cons] at hnd
    rcases List.mem_cons.mp hmem with h | h
    · subst h
      exact List.find?_cons_of_pos _ (by simp)
    · have hne : (a.id == X.id) = false := by
        simp only [beq_eq_false_iff_ne, ne_eq]
        intro hc
        exact hnd.1 (hc ▸ List.mem_map_of_mem WarmupSession.id h)
      simp only [List.find?, hne]
      exact ih h hnd.2

/-- The function `applyUpdate` never rewrites the row id. -/
theorem applyUpdate_id (st : SessionStatus) (ex : UpdateExtras)
    (s : WarmupSession) : (applyUpdate st ex s).id = s.id := by
  rcases ex with ⟨i, m, e, c⟩
  cases i <;> cases m <;> cases e <;> cases c <;> rfl

/-- The index written by `applyUpdate` is the provided one, else the old. -/
theorem applyUpdate_index (st : SessionStatus) (ex : UpdateExtras)
    (s : WarmupSession) :
    (applyUpdate st ex s).current_lead_index =
      ex.current_lead_index.getD s.current_lead_index := by
  rcases ex with ⟨i, m, e, c⟩
  cases i <;> cases m <;> cases e <;> cases c <;> rfl

/-- The function `applyUpdate` always writes the given status. -/
theorem applyUpdate_status (st : SessionStatus) (ex : UpdateExtras)
    (s : WarmupSession) : (applyUpdate st ex s).status = st := by
  rcases ex with ⟨i, m, e, c⟩
  cases i <;> cases m <;> cases e <;> cases c <;> rfl

/-- The operation `updateStatus` maps the stored index of the targeted row through the
provided extra (or keeps it). -/
theorem updateStatus_rowIndex_self (db : SessionDB) (id : Nat)
    (st : SessionStatus) (ex : UpdateExtras) :
    rowIndex (db.updateStatus id st ex).1 id =
      (rowIndex db id).map (fun n => ex.current_lead_index.getD n) := by
  cases hf : db.rows.find? (fun r => r.id == id) with
  | none =>
    simp [SessionDB.updateStatus, rowIndex, hf]
  | some r =>
    have hpr0 := List.find?_some hf
    have hpr : (r.id == id) = true := hpr0
    have hpr' : ((applyUpdate st ex r).id == id) = true := by
      rw [applyUpdate_id]
      exact hpr
    have hrepl := find?_replaceRow (fun x => x.id == id) r
      (applyUpdate st ex r) hpr' db.rows hf
    simp only [SessionDB.updateStatus, rowIndex, hf]
    rw [hrepl]
    simp [applyUpdate_index]

/-- The operation `updateStatus` leaves the stored index of every other row unchanged. -/
theorem updateStatus_rowIndex_ne (db : SessionDB) (id j : Nat) (hne : j ≠ id)
    (st : SessionStatus) (ex : UpdateExtras) :
    rowIndex (db.updateStatus id st ex).1 j = rowIndex db j := by
  cases hf : db.rows.find? (fun r => r.id == id) with
  | none =>
    simp only [SessionDB.updateStatus, rowIndex, hf]
  | some r =>
    have hrid : r.id = id := by
      have := List.find?_some hf
      simpa using this
    have hrne : r.id ≠ j := by
      rw [hrid]
      exact fun hc => hne hc.symm
    have hrepl := find?_replaceRow_ne j r (applyUpdate st ex r)
      (applyUpdate_id st ex r) hrne db.rows
    simp only [SessionDB.updateStatus, rowIndex, hf]
    rw [hrepl]

/-- The operation `updateStatus` without an index extra preserves every stored index. -/
theorem updateStatus_rowIndex_of_none (db : SessionDB) (id j : Nat)
    (st : SessionStatus) (ex : UpdateExtras)
    (hex : ex.current_lead_index = none) :
    rowIndex (db.updateStatus id st ex).1 j = rowIndex db j := by
  by_cases hj : j = id
  · subst hj
    rw [updateStatus_rowIndex_self, hex]
    cases rowIndex db j <;> rfl
  · exact updateStatus_rowIndex_ne db id j hj st ex

/-- The operation `updateStatus` writes the given status on the targeted row. -/
theorem updateStatus_rowStatus_self (db : SessionDB) (id : Nat)
    (st : SessionStatus) (ex : UpdateExtras) :
    rowStatus (db.updateStatus id st ex).1 id =
      (rowStatus db id).map (fun _ => st) := by
  cases hf : db.rows.find? (fun r => r.id == id) with
  | none =>
    simp [SessionDB.updateStatus, rowStatus, hf]
  | some r =>
    have hpr0 := List.find?_some hf
    have hpr : (r.id == id) = true := hpr0
    have hpr' : ((applyUpdate st ex r).id == id) = true := by
      rw [applyUpdate_id]
      exact hpr
    have hrepl := find?_replaceRow (fun x => x.id == id) r
      (applyUpdate st ex r) hpr' db.rows hf
    simp only [SessionDB.updateStatus, rowStatus, hf]
    rw [hrepl]
    simp [applyUpdate_status]

/-- A row whose index is stored also has a stored status. -/
theorem rowStatus_isSome_of_rowIndex (db : SessionDB) (id : Nat) (n : Nat)
    (h : rowIndex db id = some n) : ∃ st, rowStatus db id = some st := by
  unfold rowIndex at h
  unfold rowStatus
  cases hf : db.rows.find? (fun r => r.id == id) with
  | none => rw [hf] at h; cases h
  | some r => exact ⟨r.status, rfl⟩

/-- The row found by `updateStatus` is returned updated. -/
theorem updateStatus_resultRow (db : SessionDB) (id : Nat)
    (st : SessionStatus) (ex : UpdateExtras) (r : WarmupSession)
    (hf : db.rows.find? (fun x => x.id == id) = some r) :
    (db.updateStatus id st ex).2 = some (applyUpdate st ex r) := by
  simp only [SessionDB.updateStatus, hf]

/-- The Message-ID built by `sendEmail` always has the `<uuid@domain>`
shape, whatever the threading arguments. -/
theorem buildMailOptions_messageId (config : SmtpConfig)
    (params : SendEmailParams) (uuid : String) :
    (buildMailOptions config params uuid).messageId =
      "<" ++ uuid ++ "@" ++ emailDomainPart config.email ++ ">" := by
  unfold buildMailOptions
  split <;> rfl

/-- Claim C10: the SMTP transport ignores the account's configured secure
flag entirely — for every send and every connection test, TLS-on-connect is
enabled iff the configured port equals 465, regardless of the stored
`smtp_secure` value. -/
theorem c10_transporter_ignores_secure (config : SmtpConfig) (b1 b2 : Bool)
    (params : SendEmailParams) (uuid : String) (accepted : List String) :
    (createTransporter config).secure = (config.port == 465) ∧
    createTransporter { config with secure := b1 }
      = createTransporter { config with secure := b2 } ∧
    sendEmail { config with secure := b1 } params uuid accepted
      = sendEmail { config with secure := b2 } params uuid accepted ∧
    (sendEmail config params uuid accepted).1 = createTransporter config ∧
    testSmtpConnectionTransporter { config with secure := b1 }
      = testSmtpConnectionTransporter { config with secure := b2 } ∧
    (testSmtpConnectionTransporter config).secure = (config.port == 465) :=
  ⟨rfl, rfl, rfl, rfl, rfl, rfl⟩

/-- Claim C8, counterexample: when an explicit `references` argument is
supplied together with `in_reply_to`, the References header carries the
`references` value, not the `in_reply_to` value. -/
theorem c8_references_counterexample :
    (sendEmail c8Config c8Params "u1" ["lead1@gmail.test"]).2.1.inReplyToHeader
        = some "<a@x>" ∧
    (sendEmail c8Config c8Params "u1" ["lead1@gmail.test"]).2.1.referencesHeader
        = some "<b@x>" ∧
    ("<b@x>" : String) ≠ "<a@x>" := by
  refine ⟨by decide, by decide, by decide⟩

/-- Claim C8, amended: the Message-ID is `<uuid@sender-domain>` and the
result is exactly that id with the server's accepted list; when a truthy
`in_reply_to` is supplied, In-Reply-To is set to it and References to
`references || in_reply_to` — which equals the `in_reply_to` value whenever
`references` is absent or equal to it, as at both orchestrator call sites. -/
theorem c8_sendEmail_headers (config : SmtpConfig) (params : SendEmailParams)
    (uuid : String) (accepted : List String) :
    (sendEmail config params uuid accepted).2.1.messageId
        = "<" ++ uuid ++ "@" ++ emailDomainPart config.email ++ ">" ∧
    (sendEmail config params uuid accepted).2.2.messageId
        = (sendEmail config params uuid accepted).2.1.messageId ∧
    (sendEmail config params uuid accepted).2.2.accepted = accepted ∧
    (∀ v, params.inReplyTo = some v → v ≠ "" →
      (sendEmail config params uuid accepted).2.1.inReplyToHeader = some v ∧
      (sendEmail config params uuid accepted).2.1.referencesHeader
          = some ((strTruthy params.references).getD v)) ∧
    (∀ v, params.inReplyTo = some v → v ≠ "" →
      params.references = none ∨ params.references = some v →
      (sendEmail config params uuid accepted).2.1.referencesHeader = some v) := by
  have h4 : ∀ v, params.inReplyTo = some v → v ≠ "" →
      (sendEmail config params uuid accepted).2.1.inReplyToHeader = some v ∧
      (sendEmail config params uuid accepted).2.1.referencesHeader
          = some ((strTruthy params.references).getD v) := by
    intro v hv hne
    have hst : strTruthy params.inReplyTo = some v := by
      rw [hv]
      simp [strTruthy, hne]
    constructor
    · show (buildMailOptions config params uuid).inReplyToHeader = some v
      simp [buildMailOptions, hst]
    · show (buildMailOptions config params uuid).referencesHeader
          = some ((strTruthy params.references).getD v)
      simp [buildMailOptions, hst]
  refine ⟨buildMailOptions_messageId config params uuid, rfl, rfl, h4, ?_⟩
  intro v hv hne href
  rw [(h4 v hv hne).2]
  rcases href with h | h
  · rw [h]
    rfl
  · rw [h]
    simp [strTruthy, hne]

/-- Witness for `c8_sendEmail_headers` at the reply call-site shape. -/
theorem c8_sendEmail_headers_witness :
    (sendEmail c8Config c8wParams "u2" ["warm@example.com"]).2.1.inReplyToHeader
        = some "<a@x>" ∧
    (sendEmail c8Config c8wParams "u2" ["warm@example.com"]).2.1.referencesHeader
        = some "<a@x>" := by
  have h := c8_sendEmail_headers c8Config c8wParams "u2" ["warm@example.com"]
  exact ⟨(h.2.2.2.1 "<a@x>" rfl (by decide)).1,
         h.2.2.2.2 "<a@x>" rfl (by decide) (Or.inl rfl)⟩

/-- Claim C7: create-or-reset is idempotent within a day — two calls for the
same domain account on the same day return rows with identical
(id, domain_account_id, session_date), status pending, index 0, and cleared
last_message_id / error_message / completed_at. -/
theorem c7_create_or_reset_idempotent (db : SessionDB) (d : String)
    (today n1 n2 : Nat) :
    ((db.create d today n1).1.create d today n2).2.id
        = (db.create d today n1).2.id ∧
    ((db.create d today n1).1.create d today n2).2.domain_account_id
        = (db.create d today n1).2.domain_account_id ∧
    ((db.create d today n1).1.create d today n2).2.session_date
        = (db.create d today n1).2.session_date ∧
    (db.create d today n1).2.status = SessionStatus.pending ∧
    ((db.create d today n1).1.create d today n2).2.status
        = SessionStatus.pending ∧
    (db.create d today n1).2.current_lead_index = 0 ∧
    ((db.create d today n1).1.create d today n2).2.current_lead_index = 0 ∧
    (db.create d today n1).2.last_message_id = none ∧
    ((db.create d today n1).1.create d today n2).2.last_message_id = none ∧
    (db.create d today n1).2.error_message = none ∧
    ((db.create d today n1).1.create d today n2).2.error_message = none ∧
    (db.create d today n1).2.completed_at = none ∧
    ((db.create d today n1).1.create d today n2).2.completed_at = none := by
  cases hf : db.rows.find? (fun r =>
      r.domain_account_id == d && r.session_date == today) with
  | some r =>
    have hpr0 := List.find?_some hf
    have hpr : ((resetRow n1 r).domain_account_id == d &&
        (resetRow n1 r).session_date == today) = true := hpr0
    have hrepl := find?_replaceRow
      (fun x => x.domain_account_id == d && x.session_date == today) r
      (resetRow n1 r) hpr db.rows hf
    simp only [SessionDB.create, hf, hrepl]
    exact ⟨rfl, rfl, rfl, rfl, rfl, rfl, rfl, rfl, rfl, rfl, rfl, rfl, rfl⟩
  | none =>
    simp [SessionDB.create, hf, List.find?_append, List.find?, resetRow]

/-- Claim C5: starting with an empty lead roster fails with a validation
error and performs no state change — the returned world is the input world
(no session row created or reset, domain status untouched); with no
already-registered orchestrator and an existing account, the error is the
no-leads message. -/
theorem c5_start_no_leads (w : World) (acct : Option DomainAccount)
    (now : Nat) :
    (startWarmup w acct [] now).1 = w ∧
    (∃ msg, (startWarmup w acct [] now).2 = Except.error msg) ∧
    (w.active = none → ∀ a, acct = some a →
      (startWarmup w acct [] now).2 = Except.error
        "No lead accounts configured. Add at least one lead Gmail account.") := by
  cases hA : w.active with
  | some a =>
    refine ⟨?_, ⟨"Warm-up session already active for this domain account", ?_⟩, ?_⟩
    · simp [startWarmup, hA]
    · simp [startWarmup, hA]
    · intro h
      exact Option.noConfusion h
  | none =>
    cases acct with
    | none =>
      refine ⟨?_, ⟨"Domain account not found", ?_⟩, ?_⟩
      · simp [startWarmup, hA]
      · simp [startWarmup, hA]
      · intro _ a ha
        cases ha
    | some a =>
      refine ⟨?_,
        ⟨"No lead accounts configured. Add at least one lead Gmail account.", ?_⟩,
        ?_⟩
      · simp [startWarmup, hA]
      · simp [startWarmup, hA]
      · intro _ b hb
        simp [startWarmup, hA]

/-- Witness for `c5_start_no_leads` on a concrete world with no registered
orchestrator. -/
theorem c5_start_no_leads_witness :
    (startWarmup exStoppedWorld (some exDomainAcct) [] 44).1 = exStoppedWorld ∧
    (startWarmup exStoppedWorld (some exDomainAcct) [] 44).2 = Except.error
      "No lead accounts configured. Add at least one lead Gmail account." := by
  have h := c5_start_no_leads exStoppedWorld (some exDomainAcct) 44
  exact ⟨h.1, h.2.2 rfl exDomainAcct rfl⟩

/-- Claim C1, counterexample: the create-or-reset reuse of the same
(domain, today) row writes `current_lead_index = 0` over a stored value of
3 — a strict decrease by an operation the claim covers. -/
theorem c1_create_reset_decreases_index :
    rowIndex c1Db 7 = some 3 ∧
    rowIndex (c1Db.create "dom-1" 20 6).1 7 = some 0 ∧
    (0 : Nat) < 3 := by
  refine ⟨by decide, by decide, by decide⟩

/-- Claim C2, counterexample: in a single listener lifetime with no
`disconnect()`, `onTimeout` fires twice (the wait timer is re-armed by the
reconnect's INBOX open) and a message is still delivered to the email
callback after the first timeout. -/
theorem c2_timeout_counterexample :
    (listenerRun (ListenerState.init true) c2Trace).timeoutsFired = 2 ∧
    (listenerRun (ListenerState.init true) c2Trace).deliveredAfterTimeout
        = 1 ∧
    ListenerEvent.disconnectCall ∉ c2Trace := by
  refine ⟨by decide, by decide, by decide⟩

/-- Claim C3, counterexample: the first pause succeeds and returns the
paused row, but the second pause throws instead of returning the same row. -/
theorem c3_pause_pause_counterexample :
    (pauseWarmup exWorld1).2 =
      Except.ok (some { exSession0 with status := SessionStatus.paused }) ∧
    (pauseWarmup (pauseWarmup exWorld1).1).2 =
      Except.error "No active warm-up session found for this domain account" := by
  refine ⟨by rfl, by rfl⟩

/-- Claim C4, counterexample: a second delivery of the same matching
message to the lead callback after the first accept is not a no-op — it
appends a second `received` mail-log entry and schedules a second reply
timer. -/
theorem c4_second_delivery_counterexample :
    c4WorldAfterFirst.mailLog.length = 1 ∧
    (c4WorldAfterFirst.active.map (fun a => a.leadImapListener)) = some false ∧
    (c4WorldAfterFirst.active.map (fun a => a.timers.length)) = some 1 ∧
    c4WorldAfterSecond.mailLog.length = 2 ∧
    (c4WorldAfterSecond.active.map (fun a => a.timers.length)) = some 2 := by
  refine ⟨by decide, by decide, by decide, by decide, by decide⟩

/-- Claim C6, counterexample: when the skipped lead was the last one, the
orchestrator completes the session synchronously inside `skipToNextLead` —
there is no 10-second wait before completion (no pending timer exists, the
session row is already `completed` when the call returns). -/
theorem c6_skip_completes_immediately_counterexample :
    (skipToNextLead exWorld1 55).active = none ∧
    rowStatus (skipToNextLead exWorld1 55).db 1
        = some SessionStatus.completed ∧
    rowIndex (skipToNextLead exWorld1 55).db 1 = some 1 := by
  refine ⟨by decide, by decide, by decide⟩

/-- Claim C9, counterexample: a stray unseen message from the domain
address is accepted by the from-address-only check; the lead's reply is
threaded to the stray Message-ID, so the session's `replied` entry has no
matching `sent` entry. -/
theorem c9_replied_without_sent_counterexample :
    ¬ repliedSentInvariant c9World.mailLog 1 ∧
    (c9World.mailLog.map (fun e => e.direction)) =
      [Direction.sent, Direction.received, Direction.replied] ∧
    (c9World.mailLog.map (fun e => e.in_reply_to)) =
      [none, none, some "<stray@elsewhere>"] ∧
    (c9World.mailLog.map (fun e => e.message_id)) =
      ["<uid1@example.com>", "<stray@elsewhere>", "<uid2@gmail.test>"] := by
  refine ⟨by decide, by decide, by decide, by decide⟩

/-- On a destroyed listener no event fires `onTimeout` or delivers a
message, and the object stays destroyed. -/
theorem listenerStep_destroyed (st : ListenerState) (e : ListenerEvent)
    (h : st.isDestroyed = true) :
    (listenerStep st e).isDestroyed = true ∧
    (listenerStep st e).timeoutsFired = st.timeoutsFired ∧
    (listenerStep st e).deliveries = st.deliveries := by
  cases e with
  | readyEvent => simp [listenerStep, h]
  | mailEvent msgs => simp [listenerStep, h]
  | initialScanFire msgs => simp [listenerStep, h]
  | pollTick msgs => simp [listenerStep, h]
  | waitTimerFire =>
    by_cases ha : st.waitTimerArmed = true
    · simp [listenerStep, ha, h]
    · simp [listenerStep, ha, h]
  | errorEvent => simp [listenerStep, h]
  | closeEvent => simp [listenerStep, h, safeReconnect]
  | reconnectTimerFire =>
    by_cases hp : st.reconnectPending = true
    · simp [listenerStep, hp, h]
    · simp [listenerStep, hp, h]
  | disconnectCall => simp [listenerStep]

/-- Claim C2, amended: `onTimeout` can fire more than once per lifetime
(each reconnect re-arms the wait timer, and reconnect exhaustion also fires
it) and delivery does not stop at a timeout. What does hold: the wait timer
is one-shot per arming, and once `disconnect()` has run, no event fires
`onTimeout` or delivers any further message. -/
theorem c2_timeout_amended :
    (∀ st, st.waitTimerArmed = false →
      listenerStep st ListenerEvent.waitTimerFire = st) ∧
    (∀ st evts, st.isDestroyed = true →
      (listenerRun st evts).timeoutsFired = st.timeoutsFired ∧
      (listenerRun st evts).deliveries = st.deliveries) := by
  constructor
  · intro st hw
    simp [listenerStep, hw]
  · intro st evts
    induction evts generalizing st with
    | nil => intro _; exact ⟨rfl, rfl⟩
    | cons e es ih =>
      intro h
      have hs := listenerStep_destroyed st e h
      have hr := ih (listenerStep st e) hs.1
      exact ⟨hr.1.trans hs.2.1, hr.2.trans hs.2.2⟩

/-- Witness for `c2_timeout_amended`: a disarmed wait timer is a no-op, and
a disconnected listener ignores a poll and a late wait-timer fire. -/
theorem c2_timeout_amended_witness :
    listenerStep (listenerRun (ListenerState.init true)
        [ListenerEvent.disconnectCall]) ListenerEvent.waitTimerFire
      = listenerRun (ListenerState.init true) [ListenerEvent.disconnectCall] ∧
    (listenerRun (listenerRun (ListenerState.init true)
        [ListenerEvent.disconnectCall])
        [ListenerEvent.pollTick [c2Msg], ListenerEvent.waitTimerFire]).timeoutsFired
      = (listenerRun (ListenerState.init true)
        [ListenerEvent.disconnectCall]).timeoutsFired := by
  have h := c2_timeout_amended
  exact ⟨h.1 _ (by decide),
    (h.2 _ [ListenerEvent.pollTick [c2Msg], ListenerEvent.waitTimerFire]
      (by decide)).1⟩

/-- Claim C3, amended: `pause` requires a live orchestrator and deregisters
it, so the second of two pauses fails with the no-active-session error
rather than returning the same row; `stop` with no live orchestrator and no
non-terminal row for today is a no-op returning success. -/
theorem c3_pause_stop_behaviour :
    (∀ w, w.active = none →
      (pauseWarmup w).1 = w ∧
      (pauseWarmup w).2 =
        Except.error "No active warm-up session found for this domain account") ∧
    (∀ w a, w.active = some a →
      (pauseWarmup w).1.active = none ∧
      (pauseWarmup (pauseWarmup w).1).2 =
        Except.error "No active warm-up session found for this domain account") ∧
    (∀ w, w.active = none →
      w.db.findActiveToday w.domainAccountId w.today = none →
      stopWarmup w = w) := by
  refine ⟨?_, ?_, ?_⟩
  · intro w h
    exact ⟨by simp [pauseWarmup, h], by simp [pauseWarmup, h]⟩
  · intro w a h
    have h1 : (pauseWarmup w).1.active = none := by simp [pauseWarmup, h]
    refine ⟨h1, ?_⟩
    obtain ⟨w1, hW⟩ : ∃ w1, (pauseWarmup w).1 = w1 := ⟨_, rfl⟩
    rw [hW] at h1 ⊢
    simp [pauseWarmup, h1]
  · intro w h hf
    simp [stopWarmup, h, hf]

/-- Witness for `c3_pause_stop_behaviour` on the concrete running and
stopped worlds. -/
theorem c3_pause_stop_behaviour_witness :
    (pauseWarmup exWorld1).1.active = none ∧
    stopWarmup exStoppedWorld = exStoppedWorld := by
  have h := c3_pause_stop_behaviour
  exact ⟨(h.2.1 exWorld1 exActive1 rfl).1,
         h.2.2 exStoppedWorld rfl (by decide)⟩

/-- Claim C4, amended: once the lead subscription has been disconnected by
a first accept, a further delivery of a matching message to the same
callback re-runs the whole accept path — it appends another `received`
entry and schedules another reply timer; it is not a no-op. Duplicate
suppression relies solely on the destroyed listener fetching no further
batches. -/
theorem c4_second_delivery_behaviour (w : World) (a : ActiveSession)
    (lead : LeadAccount) (origSubject origBody : String)
    (incoming : IncomingEmail) (replyDelay : Nat)
    (h : w.active = some a) (hl : a.leadImapListener = false)
    (hm : normalizeAddr incoming.fromAddr
        = normalizeAddr a.domainAccount.email) :
    (leadEmailCallback w lead origSubject origBody incoming replyDelay).mailLog
      = w.mailLog ++
        [{ session_id := some a.session.id
           from_email := incoming.fromAddr
           to_email := lead.email
           subject := incoming.subject
           body := incoming.body
           message_id := incoming.messageId
           in_reply_to := none
           direction := Direction.received
           lead_index := a.session.current_lead_index }] ∧
    (leadEmailCallback w lead origSubject origBody incoming replyDelay).active
      = some { a with timers := a.timers ++
          [{ delayMs := replyDelay
             action := TimerAction.leadReply lead incoming origSubject
               origBody }] } := by
  have hbne : (normalizeAddr incoming.fromAddr !=
      normalizeAddr a.domainAccount.email) = false := by
    simp [hm]
  constructor
  · simp [leadEmailCallback, h, hbne, hl]
  · simp [leadEmailCallback, h, hbne, hl]

/-- Witness for `c4_second_delivery_behaviour`: the second delivery on the
concrete world appends a second received entry. -/
theorem c4_second_delivery_behaviour_witness :
    c4WorldAfterSecond.mailLog = c4WorldAfterFirst.mailLog ++
      [{ session_id := some 1
         from_email := "warm@example.com"
         to_email := "lead1@gmail.test"
         subject := "Hello"
         body := "Hi there"
         message_id := "<m1@example.com>"
         in_reply_to := none
         direction := Direction.received
         lead_index := 0 }] := by
  have h := c4_second_delivery_behaviour c4WorldAfterFirst
    { session := exSession0
      domainAccount := exDomainAcct
      leads := [exLead1]
      domainImapListener := false
      leadImapListener := false
      isPaused := false
      timers := [{ delayMs := 200000
                   action := TimerAction.leadReply exLead1 exIncomingFromDomain
                     "Hello" "Hi there" }] }
    exLead1 "Hello" "Hi there" exIncomingFromDomain 200000 (by decide)
    (by decide) (by decide)
  exact h.1

/-- Claim C6, amended: on a timeout for the lead at index `i`, the
orchestrator disconnects both listeners and persists
`current_lead_index = i + 1` with status `sending`; if `i + 1` reaches the
lead count it completes the session immediately (synchronously, with no
10-second wait); otherwise it schedules a single fixed 10-second timer and
the per-lead cycle re-enters at the new index, so the skipped lead is never
retried. -/
theorem c6_skip_behaviour (w : World) (a : ActiveSession) (now n : Nat)
    (h : w.active = some a) (hp : a.isPaused = false)
    (hrow : rowIndex w.db a.session.id = some n) :
    rowIndex (skipToNextLead w now).db a.session.id
        = some (a.session.current_lead_index + 1) ∧
    (a.leads.length ≤ a.session.current_lead_index + 1 →
      (skipToNextLead w now).active = none ∧
      rowStatus (skipToNextLead w now).db a.session.id
          = some SessionStatus.completed ∧
      (skipToNextLead w now).domainStatus = AccountStatus.idle) ∧
    (a.session.current_lead_index + 1 < a.leads.length →
      ∃ a2, (skipToNextLead w now).active = some a2 ∧
        a2.leadImapListener = false ∧
        a2.domainImapListener = false ∧
        a2.isPaused = false ∧
        a2.session.current_lead_index = a.session.current_lead_index + 1 ∧
        a2.timers = a.timers ++
          [{ delayMs := 10000, action := TimerAction.nextLead }] ∧
        rowStatus (skipToNextLead w now).db a.session.id
            = some SessionStatus.sending ∧
        (∀ gen uuid acc now2, ∃ entry,
          (processNextLead (skipToNextLead w now) gen uuid acc now2).mailLog
              = (skipToNextLead w now).mailLog ++ [entry] ∧
          entry.direction = Direction.sent ∧
          entry.lead_index = a.session.current_lead_index + 1)) := by
  obtain ⟨r, hf⟩ : ∃ r,
      w.db.rows.find? (fun x => x.id == a.session.id) = some r := by
    unfold rowIndex at hrow
    cases hfr : w.db.rows.find? (fun x => x.id == a.session.id) with
    | none => rw [hfr] at hrow; cases hrow
    | some r => exact ⟨r, rfl⟩
  have hrid : r.id = a.session.id := by
    have := List.find?_some hf
    simpa using this
  have hupd2 := updateStatus_resultRow w.db a.session.id SessionStatus.sending
    { current_lead_index := some (a.session.current_lead_index + 1) } r hf
  have hidx1 : rowIndex (w.db.updateStatus a.session.id SessionStatus.sending
      { current_lead_index := some (a.session.current_lead_index + 1) }).1
      a.session.id = some (a.session.current_lead_index + 1) := by
    rw [updateStatus_rowIndex_self, hrow]
    rfl
  obtain ⟨st0, hst0⟩ := rowStatus_isSome_of_rowIndex _ _ _ hidx1
  by_cases hlen : a.leads.length ≤ a.session.current_lead_index + 1
  · -- completing case
    have hworld : skipToNextLead w now = completeSession
        { w with
            db := (w.db.updateStatus a.session.id SessionStatus.sending
              { current_lead_index :=
                  some (a.session.current_lead_index + 1) }).1
            active := some { a with
              leadImapListener := false
              domainImapListener := false
              session := applyUpdate SessionStatus.sending
                { current_lead_index :=
                    some (a.session.current_lead_index + 1) } r } } now := by
      simp [skipToNextLead, h, hp, hupd2, hlen]
    have hdb : (skipToNextLead w now).db =
        ((w.db.updateStatus a.session.id SessionStatus.sending
            { current_lead_index :=
                some (a.session.current_lead_index + 1) }).1.updateStatus
          a.session.id SessionStatus.completed
          { completed_at := some (some now) }).1 := by
      rw [hworld]
      simp [completeSession, applyUpdate_id, hrid]
    refine ⟨?_, ?_, ?_⟩
    · rw [hdb, updateStatus_rowIndex_of_none _ _ _ _ _ rfl]
      exact hidx1
    · intro _
      refine ⟨?_, ?_, ?_⟩
      · rw [hworld]
        simp [completeSession]
      · rw [hdb, updateStatus_rowStatus_self, hst0]
        rfl
      · rw [hworld]
        simp [completeSession]
    · intro hlt
      exact absurd hlt (by omega)
  · -- re-enter case
    have hlt : a.session.current_lead_index + 1 < a.leads.length := by omega
    have hworld : skipToNextLead w now = { w with
        db := (w.db.updateStatus a.session.id SessionStatus.sending
          { current_lead_index := some (a.session.current_lead_index + 1) }).1
        active := some { a with
          leadImapListener := false
          domainImapListener := false
          session := applyUpdate SessionStatus.sending
            { current_lead_index :=
                some (a.session.current_lead_index + 1) } r
          timers := a.timers ++
            [{ delayMs := 10000, action := TimerAction.nextLead }] } } := by
      simp [skipToNextLead, h, hp, hupd2, hlen]
    refine ⟨?_, ?_, ?_⟩
    · rw [hworld]
      exact hidx1
    · intro hge
      exact absurd hge hlen
    · intro _
      refine ⟨{ a with
          leadImapListener := false
          domainImapListener := false
          session := applyUpdate SessionStatus.sending
            { current_lead_index :=
                some (a.session.current_lead_index + 1) } r
          timers := a.timers ++
            [{ delayMs := 10000, action := TimerAction.nextLead }] },
        ?_, rfl, rfl, hp, ?_, rfl, ?_, ?_⟩
      · rw [hworld]
      · show (applyUpdate SessionStatus.sending
            { current_lead_index :=
                some (a.session.current_lead_index + 1) } r).current_lead_index
            = a.session.current_lead_index + 1
        rw [applyUpdate_index]
        rfl
      · rw [hworld]
        have hstw := rowStatus_isSome_of_rowIndex w.db a.session.id n hrow
        obtain ⟨stw, hstw⟩ := hstw
        rw [updateStatus_rowStatus_self, hstw]
        rfl
      · intro gen uuid acc now2
        rw [hworld]
        simp only [processNextLead]
        simp [hp, hlt, applyUpdate_index]

/-- Witness for `c6_skip_behaviour` on the one-lead world. -/
theorem c6_skip_behaviour_witness :
    rowIndex (skipToNextLead exWorld1 55).db 1 = some 1 ∧
    (skipToNextLead exWorld1 55).active = none := by
  have h := c6_skip_behaviour exWorld1 exActive1 55 0 rfl rfl (by decide)
  exact ⟨h.1, (h.2.1 (by decide)).1⟩

/-- Claim C9, amended: `sendLeadReply` records
`in_reply_to = incomingEmail.messageId`; the replied/sent invariant is
preserved exactly when the accepted incoming message's id matches a `sent`
entry of the session, which the code does not check (it checks only the
from-address). -/
theorem c9_replied_sent_amended (w : World) (a : ActiveSession)
    (lead : LeadAccount) (incoming : IncomingEmail)
    (replyContent : GroqEmailResponse) (uuid : String) (acc : List String)
    (h : w.active = some a) (hp : a.isPaused = false)
    (hInv : repliedSentInvariant w.mailLog a.session.id)
    (hSent : ∃ e ∈ w.mailLog, e.direction = Direction.sent ∧
      e.session_id = some a.session.id ∧ e.message_id = incoming.messageId) :
    repliedSentInvariant
      (sendLeadReply w lead incoming replyContent uuid acc).mailLog
      a.session.id := by
  have hlog : (sendLeadReply w lead incoming replyContent uuid acc).mailLog
      = w.mailLog ++
        [{ session_id := some a.session.id
           from_email := lead.email
           to_email := a.domainAccount.email
           subject := replyContent.subject
           body := replyContent.body
           message_id := (sendEmail (leadSmtpConfig lead)
             { toAddr := a.domainAccount.email
               subject := replyContent.subject
               body := replyContent.body
               inReplyTo := some incoming.messageId
               references := some incoming.messageId } uuid acc).2.2.messageId
           in_reply_to := some incoming.messageId
           direction := Direction.replied
           lead_index := a.session.current_lead_index }] := by
    simp [sendLeadReply, h, hp]
  rw [hlog]
  intro r hr hdir hsid
  rcases List.mem_append.mp hr with hin | hin
  · obtain ⟨hnn, e, he, hed, hes, hem⟩ := hInv r hin hdir hsid
    exact ⟨hnn, e, List.mem_append_left _ he, hed, hes, hem⟩
  · have hrent := List.mem_singleton.mp hin
    subst hrent
    obtain ⟨e, he, hed, hes, hem⟩ := hSent
    refine ⟨by simp, e, List.mem_append_left _ he, hed, hes, ?_⟩
    simp [hem]

/-- Witness for `c9_replied_sent_amended`: on the faithful-delivery trace
the invariant holds after the lead's reply. -/
theorem c9_replied_sent_amended_witness :
    repliedSentInvariant
      (sendLeadReply
        (processNextLead exWorld1 exGen "uid1" ["lead1@gmail.test"] 0)
        exLead1 exGoodIncoming exReplyGen "uid2" ["warm@example.com"]).mailLog
      1 := by
  have h := c9_replied_sent_amended
    (processNextLead exWorld1 exGen "uid1" ["lead1@gmail.test"] 0)
    { session := { exSession0 with
        status := SessionStatus.waiting_reply
        last_message_id := some "<uid1@example.com>" }
      domainAccount := exDomainAcct
      leads := [exLead1]
      domainImapListener := false
      leadImapListener := true
      isPaused := false
      timers := [] }
    exLead1 exGoodIncoming exReplyGen "uid2" ["warm@example.com"]
    (by decide) rfl (by decide) (by decide)
  exact h

/-- Unchanged stores are trivially non-decreasing. -/
theorem indexNonDecreasing_refl (db : SessionDB) (id : Nat) :
    indexNonDecreasing db db id :=
  fun n hn => ⟨n, hn, Nat.le_refl n⟩

/-- Claim C1, amended: every session-store write of the orchestrator —
the waiting-reply write of `processNextLead`, the advance write of the
domain callback, the skip write, `pauseWarmup`, `stopWarmup`,
`completeSession`, `failSession`, and the non-creating branches of
`startWarmup` (paused resume, appended-leads resume, rejections) — never
decreases the stored `current_lead_index` of any row, given the
single-writer invariant that the registered snapshot's index matches the
stored row. `sessionRepo.create`, by contrast, resets the index to 0. -/
theorem c1_core_index_monotonic :
    (∀ w a gen uuid acc now, w.active = some a →
      rowIndex w.db a.session.id = some a.session.current_lead_index →
      indexNonDecreasing w.db (processNextLead w gen uuid acc now).db
        a.session.id) ∧
    (∀ w a x incoming dly now, w.active = some a →
      rowIndex w.db a.session.id = some a.session.current_lead_index →
      indexNonDecreasing w.db (domainEmailCallback w x incoming dly now).db
        a.session.id) ∧
    (∀ w a now, w.active = some a →
      rowIndex w.db a.session.id = some a.session.current_lead_index →
      indexNonDecreasing w.db (skipToNextLead w now).db a.session.id) ∧
    (∀ w id, indexNonDecreasing w.db (pauseWarmup w).1.db id) ∧
    (∀ w id, indexNonDecreasing w.db (stopWarmup w).db id) ∧
    (∀ w now id, indexNonDecreasing w.db (completeSession w now).db id) ∧
    (∀ w msg id, indexNonDecreasing w.db (failSession w msg).db id) ∧
    (∀ w acct leads now id, (w.db.rows.map WarmupSession.id).Nodup →
      ((w.db.findCompletedToday w.domainAccountId w.today).isSome ∨
       (w.db.findActiveToday w.domainAccountId w.today).isSome) →
      indexNonDecreasing w.db (startWarmup w acct leads now).1.db id) ∧
    (∀ db d t now, ((SessionDB.create db d t now).2).current_lead_index = 0) := by
  have hpres : ∀ (db : SessionDB) (i j : Nat) (st : SessionStatus)
      (ex : UpdateExtras), ex.current_lead_index = none →
      indexNonDecreasing db (db.updateStatus i st ex).1 j := by
    intro db i j st ex hex n hn
    rw [updateStatus_rowIndex_of_none _ _ _ _ _ hex, hn]
    exact ⟨n, rfl, Nat.le_refl n⟩
  have hfindRow : ∀ (w : World) (a : ActiveSession),
      rowIndex w.db a.session.id = some a.session.current_lead_index →
      ∃ r, w.db.rows.find? (fun x => x.id == a.session.id) = some r := by
    intro w a hc
    unfold rowIndex at hc
    cases hfr : w.db.rows.find? (fun x => x.id == a.session.id) with
    | none => rw [hfr] at hc; cases hc
    | some r => exact ⟨r, rfl⟩
  refine ⟨?_, ?_, ?_, ?_, ?_, ?_, ?_, ?_, ?_⟩
  · -- processNextLead
    intro w a gen uuid acc now h hc
    by_cases hp : a.isPaused = true
    · have hw : processNextLead w gen uuid acc now = w := by
        simp [processNextLead, h, hp]
      rw [hw]
      exact indexNonDecreasing_refl _ _
    · have hp' : a.isPaused = false := by simpa using hp
      by_cases hlt : a.session.current_lead_index < a.leads.length
      · have hdbeq : (processNextLead w gen uuid acc now).db
            = (w.db.updateStatus a.session.id SessionStatus.waiting_reply
                { current_lead_index := some a.session.current_lead_index
                  last_message_id := some (sendEmail
                    (domainSmtpConfig a.domainAccount)
                    { toAddr :=
                        (a.leads.get ⟨a.session.current_lead_index, hlt⟩).email
                      subject := gen.subject
                      body := gen.body } uuid acc).2.2.messageId }).1 := by
          simp [processNextLead, h, hp', hlt]
        rw [hdbeq]
        intro n hn
        rw [updateStatus_rowIndex_self, hn]
        have hne : n = a.session.current_lead_index := by
          rw [hc] at hn
          injection hn with hv
          exact hv.symm
        refine ⟨a.session.current_lead_index, rfl, hne ▸ Nat.le_refl n⟩
      · have hdbeq : (processNextLead w gen uuid acc now).db
            = (w.db.updateStatus a.session.id SessionStatus.completed
                { completed_at := some (some now) }).1 := by
          simp [processNextLead, completeSession, h, hp', hlt]
        rw [hdbeq]
        exact hpres _ _ _ _ _ rfl
  · -- domainEmailCallback
    intro w a x incoming dly now h hc
    by_cases hm : (normalizeAddr incoming.fromAddr != normalizeAddr x) = true
    · have hw : domainEmailCallback w x incoming dly now = w := by
        simp [domainEmailCallback, h, hm]
      rw [hw]
      exact indexNonDecreasing_refl _ _
    · obtain ⟨r, hf⟩ := hfindRow w a hc
      have hrid : r.id = a.session.id := by
        have := List.find?_some hf
        simpa using this
      have hupd2 := updateStatus_resultRow w.db a.session.id
        SessionStatus.sending
        { current_lead_index := some (a.session.current_lead_index + 1) } r hf
      have hstep : ∀ n, rowIndex w.db a.session.id = some n →
          ∃ m, rowIndex (w.db.updateStatus a.session.id SessionStatus.sending
            { current_lead_index :=
                some (a.session.current_lead_index + 1) }).1 a.session.id
              = some m ∧ n ≤ m := by
        intro n hn
        rw [updateStatus_rowIndex_self, hn]
        have hne : n = a.session.current_lead_index := by
          rw [hc] at hn
          injection hn with hv
          exact hv.symm
        exact ⟨a.session.current_lead_index + 1, rfl,
          hne ▸ Nat.le_succ n⟩
      cases hdl : a.domainImapListener with
      | true =>
        by_cases hge : a.session.current_lead_index + 1 ≥ a.leads.length
        · have hdbeq : (domainEmailCallback w x incoming dly now).db
              = ((w.db.updateStatus a.session.id SessionStatus.sending
                  { current_lead_index :=
                      some (a.session.current_lead_index + 1) }).1.updateStatus
                  a.session.id SessionStatus.completed
                  { completed_at := some (some now) }).1 := by
            simp [domainEmailCallback, completeSession, h, hm, hupd2, hge,
              applyUpdate_id, hrid, hdl]
          rw [hdbeq]
          intro n hn
          obtain ⟨m, hm2, hnm⟩ := hstep n hn
          rw [updateStatus_rowIndex_of_none _ _ _ _ _ rfl, hm2]
          exact ⟨m, rfl, hnm⟩
        · have hdbeq : (domainEmailCallback w x incoming dly now).db
              = (w.db.updateStatus a.session.id SessionStatus.sending
                  { current_lead_index :=
                      some (a.session.current_lead_index + 1) }).1 := by
            simp [domainEmailCallback, h, hm, hupd2, hge, hdl]
          rw [hdbeq]
          exact hstep
      | false =>
        by_cases hge : a.session.current_lead_index + 1 ≥ a.leads.length
        · have hdbeq : (domainEmailCallback w x incoming dly now).db
              = ((w.db.updateStatus a.session.id SessionStatus.sending
                  { current_lead_index :=
                      some (a.session.current_lead_index + 1) }).1.updateStatus
                  a.session.id SessionStatus.completed
                  { completed_at := some (some now) }).1 := by
            simp [domainEmailCallback, completeSession, h, hm, hupd2, hge,
              applyUpdate_id, hrid, hdl]
          rw [hdbeq]
          intro n hn
          obtain ⟨m, hm2, hnm⟩ := hstep n hn
          rw [updateStatus_rowIndex_of_none _ _ _ _ _ rfl, hm2]
          exact ⟨m, rfl, hnm⟩
        · have hdbeq : (domainEmailCallback w x incoming dly now).db
              = (w.db.updateStatus a.session.id SessionStatus.sending
                  { current_lead_index :=
                      some (a.session.current_lead_index + 1) }).1 := by
            simp [domainEmailCallback, h, hm, hupd2, hge, hdl]
          rw [hdbeq]
          exact hstep
  · -- skipToNextLead
    intro w a now h hc
    by_cases hp : a.isPaused = true
    · have hw : skipToNextLead w now = w := by
        simp [skipToNextLead, h, hp]
      rw [hw]
      exact indexNonDecreasing_refl _ _
    · have hp' : a.isPaused = false := by simpa using hp
      obtain ⟨r, hf⟩ := hfindRow w a hc
      have hrid : r.id = a.session.id := by
        have := List.find?_some hf
        simpa using this
      have hupd2 := updateStatus_resultRow w.db a.session.id
        SessionStatus.sending
        { current_lead_index := some (a.session.current_lead_index + 1) } r hf
      have hstep : ∀ n, rowIndex w.db a.session.id = some n →
          ∃ m, rowIndex (w.db.updateStatus a.session.id SessionStatus.sending
            { current_lead_index :=
                some (a.session.current_lead_index + 1) }).1 a.session.id
              = some m ∧ n ≤ m := by
        intro n hn
        rw [updateStatus_rowIndex_self, hn]
        have hne : n = a.session.current_lead_index := by
          rw [hc] at hn
          injection hn with hv
          exact hv.symm
        exact ⟨a.session.current_lead_index + 1, rfl, hne ▸ Nat.le_succ n⟩
      by_cases hge : a.session.current_lead_index + 1 ≥ a.leads.length
      · have hdbeq : (skipToNextLead w now).db
            = ((w.db.updateStatus a.session.id SessionStatus.sending
                { current_lead_index :=
                    some (a.session.current_lead_index + 1) }).1.updateStatus
                a.session.id SessionStatus.completed
                { completed_at := some (some now) }).1 := by
          simp [skipToNextLead, completeSession, h, hp', hupd2, hge,
            applyUpdate_id, hrid]
        rw [hdbeq]
        intro n hn
        obtain ⟨m, hm2, hnm⟩ := hstep n hn
        rw [updateStatus_rowIndex_of_none _ _ _ _ _ rfl, hm2]
        exact ⟨m, rfl, hnm⟩
      · have hdbeq : (skipToNextLead w now).db
            = (w.db.updateStatus a.session.id SessionStatus.sending
                { current_lead_index :=
                    some (a.session.current_lead_index + 1) }).1 := by
          simp [skipToNextLead, h, hp', hupd2, hge]
        rw [hdbeq]
        exact hstep
  · -- pauseWarmup
    intro w id
    cases hA : w.active with
    | none =>
      have hw : (pauseWarmup w).1 = w := by simp [pauseWarmup, hA]
      rw [hw]
      exact indexNonDecreasing_refl _ _
    | some a0 =>
      have hdb : (pauseWarmup w).1.db
          = (w.db.updateStatus a0.session.id SessionStatus.paused {}).1 := by
        simp [pauseWarmup, hA]
      rw [hdb]
      exact hpres _ _ _ _ _ rfl
  · -- stopWarmup
    intro w id
    cases hA : w.active with
    | none =>
      cases hS : w.db.findActiveToday w.domainAccountId w.today with
      | none =>
        have hw : stopWarmup w = w := by simp [stopWarmup, hA, hS]
        rw [hw]
        exact indexNonDecreasing_refl _ _
      | some s =>
        have hdb : (stopWarmup w).db
            = (w.db.updateStatus s.id SessionStatus.failed
                { error_message := some (some "Manually stopped by user") }).1 := by
          simp [stopWarmup, hA, hS]
        rw [hdb]
        exact hpres _ _ _ _ _ rfl
    | some a0 =>
      have hdb : (stopWarmup w).db
          = (w.db.updateStatus a0.session.id SessionStatus.failed
              { error_message := some (some "Manually stopped by user") }).1 := by
        simp [stopWarmup, failSession, hA]
      rw [hdb]
      exact hpres _ _ _ _ _ rfl
  · -- completeSession
    intro w now id
    cases hA : w.active with
    | none =>
      have hw : completeSession w now = w := by simp [completeSession, hA]
      rw [hw]
      exact indexNonDecreasing_refl _ _
    | some a0 =>
      have hdb : (completeSession w now).db
          = (w.db.updateStatus a0.session.id SessionStatus.completed
              { completed_at := some (some now) }).1 := by
        simp [completeSession, hA]
      rw [hdb]
      exact hpres _ _ _ _ _ rfl
  · -- failSession
    intro w msg id
    cases hA : w.active with
    | none =>
      have hw : failSession w msg = w := by simp [failSession, hA]
      rw [hw]
      exact indexNonDecreasing_refl _ _
    | some a0 =>
      have hdb : (failSession w msg).db
          = (w.db.updateStatus a0.session.id SessionStatus.failed
              { error_message := some (some msg) }).1 := by
        simp [failSession, hA]
      rw [hdb]
      exact hpres _ _ _ _ _ rfl
  · -- startWarmup, non-creating branches
    intro w acct leads now id hnd hsome
    cases hA : w.active with
    | some a0 =>
      have hw : (startWarmup w acct leads now).1 = w := by
        simp [startWarmup, hA]
      rw [hw]
      exact indexNonDecreasing_refl _ _
    | none =>
      cases acct with
      | none =>
        have hw : (startWarmup w none leads now).1 = w := by
          simp [startWarmup, hA]
        rw [hw]
        exact indexNonDecreasing_refl _ _
      | some acct0 =>
        by_cases hleads : leads.length == 0
        · have hw : (startWarmup w (some acct0) leads now).1 = w := by
            simp [startWarmup, hA, hleads]
          rw [hw]
          exact indexNonDecreasing_refl _ _
        · cases hC : w.db.findCompletedToday w.domainAccountId w.today with
          | some c =>
            by_cases hcl : c.current_lead_index < leads.length
            · have hcmem := List.mem_of_find?_eq_some hC
              have hcid := find?_id_of_mem_nodup w.db.rows c hcmem hnd
              have hcidx : rowIndex w.db c.id = some c.current_lead_index := by
                unfold rowIndex
                rw [hcid]
                rfl
              have hdb : (startWarmup w (some acct0) leads now).1.db
                  = (w.db.updateStatus c.id SessionStatus.sending
                      { current_lead_index := some c.current_lead_index
                        error_message := some none
                        completed_at := some none }).1 := by
                simp [startWarmup, hA, hleads, hC, hcl]
              rw [hdb]
              intro n hn
              by_cases hid : id = c.id
              · subst hid
                rw [updateStatus_rowIndex_self, hn]
                have hn2 : n = c.current_lead_index := by
                  rw [hcidx] at hn
                  injection hn with hv
                  exact hv.symm
                exact ⟨c.current_lead_index, rfl, hn2 ▸ Nat.le_refl n⟩
              · rw [updateStatus_rowIndex_ne _ _ _ hid, hn]
                exact ⟨n, rfl, Nat.le_refl n⟩
            · have hw : (startWarmup w (some acct0) leads now).1 = w := by
                simp [startWarmup, hA, hleads, hC, hcl]
              rw [hw]
              exact indexNonDecreasing_refl _ _
          | none =>
            cases hAc : w.db.findActiveToday w.domainAccountId w.today with
            | some s =>
              by_cases hps : s.status == SessionStatus.paused
              · have hdb : (startWarmup w (some acct0) leads now).1.db
                    = (w.db.updateStatus s.id SessionStatus.sending {}).1 := by
                  simp [startWarmup, hA, hleads, hC, hAc, hps]
                rw [hdb]
                exact hpres _ _ _ _ _ rfl
              · have hw : (startWarmup w (some acct0) leads now).1 = w := by
                  simp [startWarmup, hA, hleads, hC, hAc, hps]
                rw [hw]
                exact indexNonDecreasing_refl _ _
            | none =>
              rw [hC] at hsome
              rw [hAc] at hsome
              simp at hsome
  · -- sessionRepo.create resets the index to 0
    intro db d t now
    cases hf : db.rows.find? (fun r =>
        r.domain_account_id == d && r.session_date == t) with
    | some r => simp [SessionDB.create, hf, resetRow]
    | none => simp [SessionDB.create, hf]

/-- Witness for `c1_core_index_monotonic`: the skip write on the concrete
world advances the stored index. -/
theorem c1_core_index_monotonic_witness :
    ∃ m, rowIndex (skipToNextLead exWorld1 55).db 1 = some m ∧ 0 ≤ m := by
  have h := c1_core_index_monotonic
  exact h.2.2.1 exWorld1 exActive1 55 rfl (by decide) 0 (by decide)

end EmailWarmup
